import Mathlib

/-!
Verification of `src/uavsim/map.py` (casterbn/uavsim).

The two inter-thread channels are Python `collections.deque(maxlen=1)`
objects (`map.py` lines 175-176).  We embed such a deque as a `List`
whose head is the left end: `append` adds at the right and, when the
deque is full, drops from the left; `pop` removes from the right and
fails (Python `IndexError`) on an empty deque, which we render as
`Option`.

Numeric and string payload values carried by commands are embedded as
an explicit sum `Val`; telemetry field values are rationals (the code
never computes with them, it only moves them around, so the exact
numeric type is irrelevant as long as values are compared by identity).
-/

/-- One cell of a command payload tuple: Python tuples mixing strings
(`force_location` sends the raw text fields) and numbers
(`force_pid` sends floats). -/
inductive Val where
  | str (s : String)
  | num (q : ℚ)
deriving DecidableEq, Repr

/-- A log line, with its Python logging level. -/
inductive LogEntry where
  | error (msg : String)
  | warning (msg : String)
deriving DecidableEq, Repr

/-- An outbound command as placed on `queue_out`: a tag string and a
positional argument tuple (`map.py` lines 120, 153). -/
abbrev Cmd : Type := String × List Val

/-- One `session.publish(topic, *args)` call: topic and positional
payload. -/
abbrev Pub : Type := String × List Val

/-- `collections.deque.append` for a deque with a `maxlen` bound:
adds `v` at the right; if the deque is already at capacity, the
leftmost (oldest) element is dropped. -/
def dequeAppend (maxlen : Nat) (items : List α) (v : α) : List α :=
  if items.length < maxlen then items ++ [v]
  else (items ++ [v]).drop (items.length + 1 - maxlen)

/-- `collections.deque.pop`: removes and returns the rightmost
element; `none` models the `IndexError` raised on an empty deque. -/
def dequePop (items : List α) : Option (α × List α) :=
  match items.getLast? with
  | some v => some (v, items.dropLast)
  | none => none

/-- Telemetry event payload: the key/value map delivered on
`sim.telemetry`. -/
def Telemetry : Type := List (String × ℚ)

/-- Python `telemetry[key]`: `.ok` the value, `.error key` models the
`KeyError` naming the missing key. -/
def dictGet (telemetry : Telemetry) (key : String) : Except String ℚ :=
  match telemetry.lookup key with
  | some v => Except.ok v
  | none => Except.error key

/-- Body of `MapComponent.on_sim_telemetry` before the `except KeyError`
handler (`map.py` lines 32-36): look up the three fields in source
order (a `KeyError` aborts the rest), then append the triple to
`queue_to_ui`. -/
def MapComponent.on_sim_telemetry_body (telemetry : Telemetry)
    (queue_to_ui : List (ℚ × ℚ × ℚ)) : Except String (List (ℚ × ℚ × ℚ)) :=
  match dictGet telemetry "latitude-deg" with
  | Except.error e => Except.error e
  | Except.ok lat =>
    match dictGet telemetry "longitude-deg" with
    | Except.error e => Except.error e
    | Except.ok lng =>
      match dictGet telemetry "heading-deg" with
      | Except.error e => Except.error e
      | Except.ok heading =>
          Except.ok (dequeAppend 1 queue_to_ui (lat, lng, heading))

/-- `MapComponent.on_sim_telemetry` (`map.py` lines 30-38): on a
`KeyError` the queue is left alone and the error is logged; otherwise
the extracted triple is appended.  Returns the new `queue_to_ui`
together with the log lines emitted. -/
def MapComponent.on_sim_telemetry (telemetry : Telemetry)
    (queue_to_ui : List (ℚ × ℚ × ℚ)) : List (ℚ × ℚ × ℚ) × List LogEntry :=
  match MapComponent.on_sim_telemetry_body telemetry queue_to_ui with
  | Except.ok q => (q, [])
  | Except.error e => (queue_to_ui, [LogEntry.error e])

/-- Result of one `pass_outgoing_cmd` invocation: the final
`queue_out`, the publishes issued, and the log lines emitted. -/
structure DrainResult where
  queue_out : List Cmd
  published : List Pub
  logs : List LogEntry
deriving DecidableEq, Repr

/-- The dispatch on one popped command (`map.py` lines 45-50):
`pos` publishes to `map.position`, `pid` to `map.pid`, anything
else logs a warning and is dropped. -/
def dispatchOne (cmd : String) (arguments : List Val) :
    List Pub × List LogEntry :=
  if cmd = "pos" then ([("map.position", arguments)], [])
  else if cmd = "pid" then ([("map.pid", arguments)], [])
  else ([], [LogEntry.warning ("Unknown command: " ++ cmd ++ ", ignoring")])

/-- `MapComponent.pass_outgoing_cmd` (`map.py` lines 40-52): a
`while True` loop that pops from `queue_out` and dispatches, stopped by
the `IndexError` of popping an empty deque, which the handler
swallows. -/
def MapComponent.pass_outgoing_cmd (queue_out : List Cmd) : DrainResult :=
  match h : dequePop queue_out with
  | none => ⟨queue_out, [], []⟩
  | some ((cmd, arguments), rest) =>
      let step := dispatchOne cmd arguments
      let r := MapComponent.pass_outgoing_cmd rest
      ⟨r.queue_out, step.1 ++ r.published, step.2 ++ r.logs⟩
termination_by queue_out.length
decreasing_by
  unfold dequePop at h
  cases hl : queue_out.getLast? with
  | none => rw [hl] at h; exact absurd h (by simp)
  | some w =>
    rw [hl] at h
    simp only [Option.some.injEq, Prod.mk.injEq] at h
    have hne : queue_out ≠ [] := by
      intro he
      rw [he] at hl
      exact absurd hl (by simp)
    have hpos : 0 < queue_out.length := List.length_pos.mpr hne
    rw [← h.2, List.length_dropLast]
    omega

/-- `Locator.force_location` (`map.py` lines 114-122): appends the
command `('loc', (lat, lng))` to `queue_out`.  The raw text fields are
forwarded unparsed. -/
def Locator.force_location (queue_out : List Cmd) (lat lng : String) :
    List Cmd :=
  dequeAppend 1 queue_out ("loc", [Val.str lat, Val.str lng])

/-- `PIDManager.force_pid` (`map.py` lines 150-155): appends the
command `('pid', (kp, ki, kd))` to `queue_out`. -/
def PIDManager.force_pid (queue_out : List Cmd) (kp ki kd : ℚ) :
    List Cmd :=
  dequeAppend 1 queue_out ("pid", [Val.num kp, Val.num ki, Val.num kd])

/-- Outcome of one `runner.run(component_class)` call inside
`join_to_router`: either the session runs and returns, or the
transport raises an `OSError` (connection refused, `gaierror` name
resolution failure and socket errors are all `OSError` subclasses). -/
inductive RunOutcome where
  | ok
  | oserror
deriving DecidableEq, Repr

/-- `join_to_router`'s retry loop (`map.py` lines 76-86), driven by the
sequence of outcomes the transport produces, one per attempt.  Returns
the number of connection attempts made before the loop exits, or
`none` when the supplied outcome trace is exhausted with the loop
still rerunning. -/
def join_to_router : List RunOutcome → Option Nat
  | [] => none
  | RunOutcome.ok :: _ => some 1
  | RunOutcome.oserror :: rest => (join_to_router rest).map (· + 1)

/-- The shared mutable state visible to `MapComponent`: the two
`deque(maxlen=1)` channels handed to it via `config.extra`
(`map.py` lines 26-27, 175-176, 181). -/
structure CoreState where
  queue_to_ui : List (ℚ × ℚ × ℚ)
  queue_out : List Cmd
deriving DecidableEq

/-- `on_sim_telemetry` as a step on the full shared state: the method
body references `self.queue_to_ui` only (`map.py` line 36). -/
def MapComponent.on_sim_telemetry_step (telemetry : Telemetry)
    (s : CoreState) : CoreState × List LogEntry :=
  let r := MapComponent.on_sim_telemetry telemetry s.queue_to_ui
  (⟨r.1, s.queue_out⟩, r.2)

/-- `pass_outgoing_cmd` as a step on the full shared state: the method
body references `self.queue_out` only (`map.py` line 43). -/
def MapComponent.pass_outgoing_cmd_step (s : CoreState) :
    CoreState × List Pub × List LogEntry :=
  let r := MapComponent.pass_outgoing_cmd s.queue_out
  (⟨s.queue_to_ui, r.queue_out⟩, r.published, r.logs)

/-- `n` iterations of the periodic loop in `onJoin`
(`map.py` lines 61-63): each tick invokes `pass_outgoing_cmd` and then
sleeps.  Publishes and logs of all ticks are concatenated. -/
def MapComponent.onJoin_loop : Nat → CoreState → CoreState × List Pub × List LogEntry
  | 0, s => (s, [], [])
  | n + 1, s =>
      let r := MapComponent.pass_outgoing_cmd_step s
      let rest := MapComponent.onJoin_loop n r.1
      (rest.1, r.2.1 ++ rest.2.1, r.2.2 ++ rest.2.2)

theorem dequeAppend_one (items : List α) (v : α) :
    dequeAppend 1 items v = [v] := by
  unfold dequeAppend
  split
  · have : items = [] := List.length_eq_zero.mp (by omega)
    simp [this]
  · simp

theorem dequePop_nil : dequePop ([] : List α) = none := rfl

theorem dequePop_singleton (v : α) : dequePop [v] = some (v, []) := rfl

theorem dequePop_some_length {l rest : List α} {v : α}
    (h : dequePop l = some (v, rest)) : rest.length < l.length := by
  unfold dequePop at h
  cases hl : l.getLast? with
  | none => rw [hl] at h; exact absurd h (by simp)
  | some w =>
    rw [hl] at h
    have hne : l ≠ [] := by
      intro he
      rw [he] at hl
      exact absurd hl (by simp)
    have hcons := h
    simp only [Option.some.injEq, Prod.mk.injEq] at hcons
    have hrest : rest = l.dropLast := hcons.2.symm
    rw [hrest, List.length_dropLast]
    have : 0 < l.length := List.length_pos.mpr hne
    omega

theorem dequePop_eq_none {l : List α} (h : dequePop l = none) : l = [] := by
  unfold dequePop at h
  cases hl : l.getLast? with
  | none => exact List.getLast?_eq_none_iff.mp hl
  | some w => rw [hl] at h; exact absurd h (by simp)

theorem pass_outgoing_cmd_nil :
    MapComponent.pass_outgoing_cmd [] = ⟨[], [], []⟩ := by
  unfold MapComponent.pass_outgoing_cmd
  rfl

theorem pass_outgoing_cmd_singleton (c : Cmd) :
    MapComponent.pass_outgoing_cmd [c] =
      ⟨[], (dispatchOne c.1 c.2).1, (dispatchOne c.1 c.2).2⟩ := by
  obtain ⟨cmd, arguments⟩ := c
  unfold MapComponent.pass_outgoing_cmd
  simp [dequePop_singleton, pass_outgoing_cmd_nil]

theorem foldl_dequeAppend_one (vs : List α) (init : List α) (l : α)
    (h : vs.getLast? = some l) :
    vs.foldl (dequeAppend 1) init = [l] := by
  induction vs generalizing init with
  | nil => exact absurd h (by simp)
  | cons v rest ih =>
    rw [List.foldl_cons, dequeAppend_one]
    cases rest with
    | nil =>
      simp only [List.getLast?_singleton, Option.some.injEq] at h
      rw [List.foldl_nil, h]
    | cons w rs =>
      rw [List.getLast?_cons_cons] at h
      exact ih [v] h

theorem pass_outgoing_cmd_queue_out (q : List Cmd) :
    (MapComponent.pass_outgoing_cmd q).queue_out = [] := by
  have H : ∀ (n : Nat) (q : List Cmd), q.length ≤ n →
      (MapComponent.pass_outgoing_cmd q).queue_out = [] := by
    intro n
    induction n with
    | zero =>
      intro q hq
      have hnil : q = [] := List.length_eq_zero.mp (Nat.le_zero.mp hq)
      rw [hnil, pass_outgoing_cmd_nil]
    | succ k ih =>
      intro q hq
      unfold MapComponent.pass_outgoing_cmd
      cases hp : dequePop q with
      | none => simpa using dequePop_eq_none hp
      | some p =>
        obtain ⟨⟨cmd, arguments⟩, rest⟩ := p
        have hlt : rest.length < q.length := dequePop_some_length hp
        simpa using ih rest (by omega)
  exact H q.length q le_rfl

theorem on_sim_telemetry_queue_cases (t : Telemetry)
    (q : List (ℚ × ℚ × ℚ)) :
    (MapComponent.on_sim_telemetry t q).1 = q ∨
      ∃ v, (MapComponent.on_sim_telemetry t q).1 = dequeAppend 1 q v := by
  unfold MapComponent.on_sim_telemetry
  cases hb : MapComponent.on_sim_telemetry_body t q with
  | error e => exact Or.inl rfl
  | ok q2 =>
    right
    unfold MapComponent.on_sim_telemetry_body at hb
    cases h1 : dictGet t "latitude-deg" with
    | error e => rw [h1] at hb; exact absurd hb (by simp)
    | ok la =>
      cases h2 : dictGet t "longitude-deg" with
      | error e => rw [h1, h2] at hb; exact absurd hb (by simp)
      | ok lo =>
        cases h3 : dictGet t "heading-deg" with
        | error e => rw [h1, h2, h3] at hb; exact absurd hb (by simp)
        | ok hd =>
          rw [h1, h2, h3] at hb
          simp only [Except.ok.injEq] at hb
          exact ⟨(la, lo, hd), hb.symm⟩

/-- C1: for every sequence of `put` (`append`) calls on a
`deque(maxlen=1)` slot with no intervening `take` (`pop`), a
subsequent `take` returns exactly the most recently put value and
leaves the slot empty, so every earlier value is unobservable by any
later `take` (latest-wins). -/
theorem uavsim_C1 {α : Type} (init : List α) (vs : List α) (l : α)
    (h : vs.getLast? = some l) :
    dequePop (vs.foldl (dequeAppend 1) init) = some (l, []) := by
  rw [foldl_dequeAppend_one vs init l h]
  exact dequePop_singleton l

theorem uavsim_C1_witness :
    ([(1 : ℕ), 2, 3].getLast? = some 3) ∧
      dequePop ([(1 : ℕ), 2, 3].foldl (dequeAppend 1) [0]) = some (3, []) :=
  ⟨by decide, uavsim_C1 [0] [1, 2, 3] 3 (by decide)⟩

/-- C2: for every state of the outbound-command slot (which, being a
`deque(maxlen=1)`, holds at most one value), one invocation of
`pass_outgoing_cmd` processes exactly as many commands as the slot
holds — one when non-empty, zero when empty, never more than one —
where each processed command yields exactly one publish or one log
line. -/
theorem uavsim_C2 (q : List Cmd) (hq : q.length ≤ 1) :
    (MapComponent.pass_outgoing_cmd q).published.length +
      (MapComponent.pass_outgoing_cmd q).logs.length = q.length := by
  cases q with
  | nil => simp [pass_outgoing_cmd_nil]
  | cons c rest =>
    cases rest with
    | nil =>
      rw [pass_outgoing_cmd_singleton]
      unfold dispatchOne
      split
      · rfl
      · split <;> rfl
    | cons d rest2 => simp at hq

theorem uavsim_C2_witness :
    ([(("pid" : String), [Val.num 1])].length ≤ 1) ∧
      (MapComponent.pass_outgoing_cmd [(("pid" : String), [Val.num 1])]).published.length +
        (MapComponent.pass_outgoing_cmd [(("pid" : String), [Val.num 1])]).logs.length = 1 :=
  ⟨by decide, uavsim_C2 [(("pid" : String), [Val.num 1])] (by decide)⟩

/-- C3: for every number `n` of consecutive transport-level failures
(`OSError`) followed by a successful session run, `join_to_router`
makes exactly `n + 1` connection attempts and terminates normally (no
unhandled crash): it retries once per failure with no retry bound, and
it stops retrying after the successful run regardless of the outcomes
that would follow. -/
theorem uavsim_C3 (n : Nat) (later : List RunOutcome) :
    join_to_router
        (List.replicate n RunOutcome.oserror ++ RunOutcome.ok :: later) =
      some (n + 1) := by
  induction n with
  | zero => rfl
  | succ k ih =>
    rw [List.replicate_succ, List.cons_append]
    unfold join_to_router
    rw [ih]
    rfl

/-- C4: for every telemetry event missing at least one of the keys
`latitude-deg`, `longitude-deg`, `heading-deg`, and for every prior
state of the telemetry slot, `on_sim_telemetry` performs no write: the
slot after the call equals the slot before, and the `KeyError` is
logged (a single error log line naming the missing key) rather than
raised. -/
theorem uavsim_C4 (telemetry : Telemetry) (q : List (ℚ × ℚ × ℚ))
    (hmiss : telemetry.lookup "latitude-deg" = none ∨
      telemetry.lookup "longitude-deg" = none ∨
      telemetry.lookup "heading-deg" = none) :
    (MapComponent.on_sim_telemetry telemetry q).1 = q ∧
      ∃ k, (MapComponent.on_sim_telemetry telemetry q).2 = [LogEntry.error k] := by
  unfold MapComponent.on_sim_telemetry MapComponent.on_sim_telemetry_body dictGet
  cases h1 : telemetry.lookup "latitude-deg" with
  | none => exact ⟨rfl, "latitude-deg", rfl⟩
  | some la =>
    cases h2 : telemetry.lookup "longitude-deg" with
    | none => exact ⟨rfl, "longitude-deg", rfl⟩
    | some lo =>
      cases h3 : telemetry.lookup "heading-deg" with
      | none => exact ⟨rfl, "heading-deg", rfl⟩
      | some hd => simp [h1, h2, h3] at hmiss

theorem uavsim_C4_witness :
    (([(("latitude-deg" : String), (476 : ℚ) / 10),
        (("longitude-deg" : String), (-1223 : ℚ) / 10)] :
          Telemetry).lookup "heading-deg" = none) ∧
      (MapComponent.on_sim_telemetry
          [(("latitude-deg" : String), (476 : ℚ) / 10),
            (("longitude-deg" : String), (-1223 : ℚ) / 10)]
          [((1 : ℚ), (2 : ℚ), (3 : ℚ))]).1 = [((1 : ℚ), (2 : ℚ), (3 : ℚ))] ∧
      ∃ k, (MapComponent.on_sim_telemetry
          [(("latitude-deg" : String), (476 : ℚ) / 10),
            (("longitude-deg" : String), (-1223 : ℚ) / 10)]
          [((1 : ℚ), (2 : ℚ), (3 : ℚ))]).2 = [LogEntry.error k] := by
  refine ⟨by decide, ?_⟩
  exact uavsim_C4
    [(("latitude-deg" : String), (476 : ℚ) / 10),
      (("longitude-deg" : String), (-1223 : ℚ) / 10)]
    [((1 : ℚ), (2 : ℚ), (3 : ℚ))] (Or.inr (Or.inr (by decide)))

/-- C5: for every telemetry event containing all three keys, after
`on_sim_telemetry` runs a `take` (`pop`) on the telemetry slot returns
exactly the triple (latitude, longitude, heading) just ingested. -/
theorem uavsim_C5 (telemetry : Telemetry) (q : List (ℚ × ℚ × ℚ))
    (la lo hd : ℚ)
    (h1 : telemetry.lookup "latitude-deg" = some la)
    (h2 : telemetry.lookup "longitude-deg" = some lo)
    (h3 : telemetry.lookup "heading-deg" = some hd) :
    dequePop (MapComponent.on_sim_telemetry telemetry q).1 =
      some ((la, lo, hd), []) := by
  unfold MapComponent.on_sim_telemetry MapComponent.on_sim_telemetry_body dictGet
  rw [h1, h2, h3]
  simp only [dequeAppend_one]
  exact dequePop_singleton (la, lo, hd)

theorem uavsim_C5_witness :
    (([(("latitude-deg" : String), (47.6 : ℚ)),
        (("longitude-deg" : String), (-122.3 : ℚ)),
        (("heading-deg" : String), (90.0 : ℚ))] :
          Telemetry).lookup "latitude-deg" = some (47.6 : ℚ)) ∧
      dequePop (MapComponent.on_sim_telemetry
          [(("latitude-deg" : String), (47.6 : ℚ)),
            (("longitude-deg" : String), (-122.3 : ℚ)),
            (("heading-deg" : String), (90.0 : ℚ))] []).1 =
        some (((47.6 : ℚ), (-122.3 : ℚ), (90.0 : ℚ)), []) := by
  refine ⟨by simp [List.lookup], ?_⟩
  exact uavsim_C5
    [(("latitude-deg" : String), (47.6 : ℚ)),
      (("longitude-deg" : String), (-122.3 : ℚ)),
      (("heading-deg" : String), (90.0 : ℚ))] []
    (47.6 : ℚ) (-122.3 : ℚ) (90.0 : ℚ)
    (by simp [List.lookup]) (by simp [List.lookup]) (by simp [List.lookup])

/-- C6: if the outbound slot holds the command
`('pid', (0.5, 0.1, 0.05))`, one invocation of `pass_outgoing_cmd`
issues exactly one publish, to topic `map.pid` with positional payload
`(0.5, 0.1, 0.05)`, logs nothing, and leaves the outbound slot
empty. -/
theorem uavsim_C6 :
    MapComponent.pass_outgoing_cmd
        [(("pid" : String), [Val.num 0.5, Val.num 0.1, Val.num 0.05])] =
      ⟨[], [(("map.pid" : String), [Val.num 0.5, Val.num 0.1, Val.num 0.05])],
        []⟩ := by
  rw [pass_outgoing_cmd_singleton]
  rfl

/-- C7: if the outbound slot holds a command whose tag is neither
`pos` nor `pid`, one invocation of `pass_outgoing_cmd` issues zero
publishes, logs exactly one warning, returns normally, and leaves the
outbound slot empty (the command is discarded). -/
theorem uavsim_C7 (tag : String) (arguments : List Val)
    (hp : tag ≠ "pos") (hq : tag ≠ "pid") :
    MapComponent.pass_outgoing_cmd [(tag, arguments)] =
      ⟨[], [],
        [LogEntry.warning ("Unknown command: " ++ tag ++ ", ignoring")]⟩ := by
  rw [pass_outgoing_cmd_singleton]
  simp [dispatchOne, hp, hq]

theorem uavsim_C7_witness :
    (("xyz" : String) ≠ "pos") ∧ (("xyz" : String) ≠ "pid") ∧
      MapComponent.pass_outgoing_cmd [(("xyz" : String), [Val.num 1])] =
        ⟨[], [],
          [LogEntry.warning ("Unknown command: " ++ "xyz" ++ ", ignoring")]⟩ :=
  ⟨by decide, by decide,
    uavsim_C7 "xyz" [Val.num 1] (by decide) (by decide)⟩

/-- C8: `take` (`pop`) on an empty slot yields an empty result rather
than a failure, and `pass_outgoing_cmd` invoked with an empty outbound
slot returns normally with no publish, no log and the slot still
empty — the `IndexError` is swallowed, never surfaced to the
caller. -/
theorem uavsim_C8 :
    (∀ (α : Type), dequePop ([] : List α) = none) ∧
      MapComponent.pass_outgoing_cmd [] = ⟨[], [], []⟩ :=
  ⟨fun _ => dequePop_nil, pass_outgoing_cmd_nil⟩

/-- C9: in every operation of the core session component,
`on_sim_telemetry` leaves `queue_out` untouched and changes
`queue_to_ui` only by an `append` (or not at all), while
`pass_outgoing_cmd` — and hence every iteration of the `onJoin`
periodic loop — leaves `queue_to_ui` untouched and changes `queue_out`
only by `pop`s (the result is an initial segment of the prior
content): the core never writes the command slot and never reads the
telemetry slot. -/
theorem uavsim_C9 :
    (∀ (t : Telemetry) (s : CoreState),
      (MapComponent.on_sim_telemetry_step t s).1.queue_out = s.queue_out ∧
        ((MapComponent.on_sim_telemetry_step t s).1.queue_to_ui =
            s.queue_to_ui ∨
          ∃ v, (MapComponent.on_sim_telemetry_step t s).1.queue_to_ui =
            dequeAppend 1 s.queue_to_ui v)) ∧
    (∀ s : CoreState,
      (MapComponent.pass_outgoing_cmd_step s).1.queue_to_ui =
          s.queue_to_ui ∧
        ∃ k, (MapComponent.pass_outgoing_cmd_step s).1.queue_out =
          s.queue_out.take k) ∧
    (∀ (n : Nat) (s : CoreState),
      (MapComponent.onJoin_loop n s).1.queue_to_ui = s.queue_to_ui ∧
        ∃ k, (MapComponent.onJoin_loop n s).1.queue_out =
          s.queue_out.take k) := by
  have hdrain : ∀ s : CoreState,
      (MapComponent.pass_outgoing_cmd_step s).1.queue_to_ui =
          s.queue_to_ui ∧
        ∃ k, (MapComponent.pass_outgoing_cmd_step s).1.queue_out =
          s.queue_out.take k := by
    intro s
    refine ⟨rfl, 0, ?_⟩
    show (MapComponent.pass_outgoing_cmd s.queue_out).queue_out = _
    rw [pass_outgoing_cmd_queue_out, List.take_zero]
  refine ⟨?_, hdrain, ?_⟩
  · intro t s
    exact ⟨rfl, on_sim_telemetry_queue_cases t s.queue_to_ui⟩
  · intro n
    induction n with
    | zero =>
      intro s
      exact ⟨rfl, s.queue_out.length, by simp [MapComponent.onJoin_loop]⟩
    | succ k ih =>
      intro s
      have hstep := hdrain s
      have hrest := ih (MapComponent.pass_outgoing_cmd_step s).1
      constructor
      · show (MapComponent.onJoin_loop k
            (MapComponent.pass_outgoing_cmd_step s).1).1.queue_to_ui = _
        rw [hrest.1, hstep.1]
      · obtain ⟨k2, hk2⟩ := hrest.2
        obtain ⟨k1, hk1⟩ := hstep.2
        refine ⟨min k2 k1, ?_⟩
        show (MapComponent.onJoin_loop k
            (MapComponent.pass_outgoing_cmd_step s).1).1.queue_out = _
        rw [hk2, hk1, List.take_take]

/-- C10: a Location command enqueued by `Locator.force_location`
carries the tag `loc`, which matches neither dispatch arm of
`pass_outgoing_cmd`; every such command is logged as an unknown
command and discarded with no publish ever issued for it. -/
theorem uavsim_C10 (queue_out : List Cmd) (lat lng : String) :
    Locator.force_location queue_out lat lng =
        [(("loc" : String), [Val.str lat, Val.str lng])] ∧
      MapComponent.pass_outgoing_cmd
          (Locator.force_location queue_out lat lng) =
        ⟨[], [], [LogEntry.warning "Unknown command: loc, ignoring"]⟩ := by
  have henq : Locator.force_location queue_out lat lng =
      [(("loc" : String), [Val.str lat, Val.str lng])] :=
    dequeAppend_one queue_out _
  refine ⟨henq, ?_⟩
  rw [henq, pass_outgoing_cmd_singleton]
  rfl
